import Mathlib

/-!
Verification of the mapvis data-to-layer pipeline (src/mapvis.py).

The embedding models: sheet filtering (create_map lines 59-69), geometry
classification (lines 71-103), the overall per-sheet loop with the
file-handle close at line 105, the boundary overlay selection
(lines 109-127), and the filter catalog (generate_filter_options,
lines 162-191).

Cell values are modelled as strings; a pandas NaN (missing value) is the
absence of an entry in a row's association list, while the set of columns
of a sheet is kept separately (a column may exist with missing values).
-/

namespace Mapvis

/-- A row of a sheet: association list from column name to (non-null)
cell value.  A column present in the sheet but empty in this row simply
has no entry (models pandas NaN). -/
abbrev Row := List (String × String)

/-- One worksheet: its name, its column set (df.columns) and its rows. -/
structure Sheet where
  name : String
  cols : List String
  rows : List Row
deriving DecidableEq

/-- Python str.startswith, computed on the character lists so that it
reduces in the kernel. -/
def strStartsWith (s p : String) : Bool :=
  p.data.isPrefixOf s.data

/-- Python str.removeprefix. -/
def removePrefixStr (s p : String) : String :=
  if p.data.isPrefixOf s.data then String.mk (s.data.drop p.data.length) else s

/-- Cell lookup: the value of row r at column c, none when missing/NaN. -/
def cellVal (r : Row) (c : String) : Option String :=
  (r.find? (fun p => p.1 == c)).map Prod.snd

/-- The sentinel value prepended to every filter dropdown. -/
def sentinel : String := "All, except"

/-- df[column].isin(values) evaluated at one row: NaN is never in the
list (mapvis.py lines 66-69 apply this per row). -/
def isinCell (r : Row) (c : String) (values : List String) : Bool :=
  match cellVal r c with
  | none => false
  | some v => values.contains v

/-- The row predicate realised by one pass of the filter loop
(mapvis.py lines 59-69): absent column or empty selection keep the row;
a selection containing the sentinel keeps rows not matched by isin;
otherwise rows matched by isin. -/
def filterPred (s : Sheet) (c : String) (values : List String) (r : Row) : Bool :=
  if s.cols.contains c then
    if values.isEmpty then true
    else if values.contains sentinel then !(isinCell r c values)
    else isinCell r c values
  else true

/-- One iteration of the filter loop (mapvis.py lines 59-69): skip when
the column is absent from the sheet or the selection is empty, else
keep the complement of isin when the sentinel is selected, else keep
the isin matches. -/
def applyFilter (s : Sheet) (c : String) (values : List String) (rows : List Row) : List Row :=
  if s.cols.contains c then
    if values.isEmpty then rows
    else if values.contains sentinel then rows.filter (fun r => !(isinCell r c values))
    else rows.filter (fun r => isinCell r c values)
  else rows

/-- The whole filter loop: the zip of filter_columns with filter_values
applied left to right to the sheet's rows. -/
def applyFilters (s : Sheet) (sel : List (String × List String)) : List Row :=
  sel.foldl (fun rows cv => applyFilter s cv.1 cv.2 rows) s.rows

/-- DataFrame.get(column, default): the column's value series when the
column exists, else the scalar default (used for marker styling and
hover text). -/
inductive SeriesOr where
  | column (vals : List (Option String))
  | scalar (v : String)
deriving DecidableEq

/-- df.get c dflt on a frame given by cols and rows. -/
def dfGet (cols : List String) (rows : List Row) (c dflt : String) : SeriesOr :=
  if cols.contains c then .column (rows.map (fun r => cellVal r c)) else .scalar dflt

/-- row.get c dflt on a row Series: the row's value (possibly NaN) when
the column exists in the frame, else the default. -/
def rowGet (cols : List String) (r : Row) (c dflt : String) : Option String :=
  if cols.contains c then cellVal r c else some dflt

/-- One line trace (go.Scattermapbox mode=lines, mapvis.py lines 74-85):
a single segment with per-row width/color and the series-wide text. -/
structure LineLayer where
  name : String
  lon1 : Option String
  lon2 : Option String
  lat1 : Option String
  lat2 : Option String
  width : Option String
  color : Option String
  text : SeriesOr
deriving DecidableEq

/-- One marker trace (go.Scattermapbox mode=markers, lines 87-101):
whole-column coordinate series with styling series-or-defaults. -/
structure PointLayer where
  name : String
  lons : List (Option String)
  lats : List (Option String)
  size : SeriesOr
  color : SeriesOr
  symbol : SeriesOr
  opacity : SeriesOr
  text : SeriesOr
deriving DecidableEq

/-- A map layer: either one line trace or one marker trace. -/
inductive Layer where
  | line (l : LineLayer)
  | point (p : PointLayer)
deriving DecidableEq

/-- The line-geometry column test of mapvis.py lines 71-72. -/
def hasLineCols (cols : List String) : Bool :=
  cols.contains "lat1" && cols.contains "lon1" && cols.contains "lat2" && cols.contains "lon2"

/-- The point-geometry column test of mapvis.py line 86. -/
def hasPointCols (cols : List String) : Bool :=
  cols.contains "lat" && cols.contains "lon"

/-- The ValueError message of mapvis.py line 103 (the quote character is
written via its code point). -/
def errMsg (nm : String) : String :=
  String.mk [Char.ofNat 39] ++ nm ++ String.mk [Char.ofNat 39] ++ ": wrong format"

/-- Geometry classification of one (already filtered) sheet, mapvis.py
lines 71-103: line columns give one single-segment line trace per row;
else point columns give one marker trace for all rows; else the build
raises ValueError. -/
def classifySheet (s : Sheet) (rows : List Row) : Except String (List Layer) :=
  if hasLineCols s.cols then
    .ok (rows.map (fun r =>
      Layer.line ⟨s.name,
        cellVal r "lon1", cellVal r "lon2",
        cellVal r "lat1", cellVal r "lat2",
        rowGet s.cols r "line_width" "2",
        rowGet s.cols r "line_color" "blue",
        dfGet s.cols rows "name" "Unnamed"⟩))
  else if hasPointCols s.cols then
    .ok [Layer.point ⟨s.name,
      rows.map (fun r => cellVal r "lon"),
      rows.map (fun r => cellVal r "lat"),
      dfGet s.cols rows "marker_size" "10",
      dfGet s.cols rows "marker_color" "red",
      dfGet s.cols rows "marker_symbol" "circle",
      dfGet s.cols rows "marker_opacity" "1",
      dfGet s.cols rows "name" "Unnamed"⟩]
  else
    .error (errMsg s.name)

/-- Filter then classify one sheet. -/
def processSheet (sel : List (String × List String)) (s : Sheet) : Except String (List Layer) :=
  classifySheet s (applyFilters s sel)

/-- The per-sheet loop of create_map (lines 53-103): hidden sheets are
skipped, layers of the processed sheets accumulate in order, and the
first classification failure propagates as the build's error. -/
def createMapLayers (wb : List Sheet) (sel : List (String × List String)) : Except String (List Layer) :=
  match wb with
  | [] => .ok []
  | s :: rest =>
    if strStartsWith s.name "_" then
      createMapLayers rest sel
    else
      match processSheet sel s with
      | .error e => .error e
      | .ok ls =>
        match createMapLayers rest sel with
        | .error e => .error e
        | .ok more => .ok (ls ++ more)

/-- The loop together with the xls.close() call at line 105: the Bool
records whether close executed.  The close call is reached only when
the loop completes without raising; the ValueError path leaves the
ExcelFile handle open. -/
def createMapRun (wb : List Sheet) (sel : List (String × List String)) :
    Except String (List Layer) × Bool :=
  match createMapLayers wb sel with
  | .error e => (.error e, false)
  | .ok ls => (.ok ls, true)

/-- A boundary feature of the reference dataset: its id string
("node/<n>" or "relation/<n>") and its admin_level tag. -/
structure Feature where
  id : String
  admin_level : String
deriving DecidableEq

/-- Digits of a decimal literal folded into a Nat; none on a non-digit. -/
def parseNatAux : List Char → Nat → Option Nat
  | [], acc => some acc
  | c :: cs, acc => if c.isDigit then parseNatAux cs (10 * acc + (c.toNat - 48)) else none

/-- Python int() on a decimal string; the schema contract of the
reference dataset guarantees the argument is a plain integer literal. -/
def pythonInt (s : String) : Option Nat :=
  match s.data with
  | [] => none
  | l => parseNatAux l 0

/-- The fixed allow-list of new-territory relation ids
(mapvis.py lines 116-117). -/
def newTerritoryIds : List Nat := [71971, 71973, 71980, 71022]

/-- Category assignment of mapvis.py lines 114-124: admin_level "3" is
checked first, then the allow-list, else Oblasts. -/
def featureType (f : Feature) : String :=
  if f.admin_level == "3" then "Federal districts"
  else if newTerritoryIds.contains
      ((pythonInt (removePrefixStr f.id "relation/")).getD 0) then
    "Oblasts (new territories)"
  else "Oblasts"

/-- The overlay loop of mapvis.py lines 109-127: nothing when no extra
layer is requested, else the non-node features whose category is
requested, in dataset order. -/
def selectOverlay (features : List Feature) (extra : List String) : List Feature :=
  if extra.isEmpty then []
  else features.filter (fun f =>
    !(strStartsWith f.id "node/") && extra.contains (featureType f))

/-- The exclusion set of generate_filter_options (lines 166-168). -/
def excludeColumns : List String :=
  ["name", "lat", "lon", "lat1", "lon1", "lat2", "lon2",
   "marker_size", "marker_color", "marker_symbol",
   "marker_opacity", "line_width", "line_color"]

/-- A column qualifies for the catalog when it is outside the exclusion
set and does not start with an underscore (lines 177-181). -/
def catalogEligible (c : String) : Bool :=
  !(excludeColumns.contains c) && !(strStartsWith c "_")

/-- df[c].dropna().unique() of one sheet as a finite set. -/
def sheetColValues (s : Sheet) (c : String) : Finset String :=
  (s.rows.filterMap (fun r => cellVal r c)).toFinset

/-- The sheets not hidden by a leading underscore (lines 53-55, 170-172). -/
def visibleSheets (wb : List Sheet) : List Sheet :=
  wb.filter (fun s => !(strStartsWith s.name "_"))

/-- The value set accumulated for column c across all visible sheets
holding that column (generate_filter_options lines 183-186). -/
def catalogValues (wb : List Sheet) (c : String) : Finset String :=
  (visibleSheets wb).foldl
    (fun acc s => if s.cols.contains c then acc ∪ sheetColValues s c else acc) ∅

/-- Whether column c gets a catalog entry: it must qualify and occur in
some visible sheet (lines 176-184). -/
def inCatalog (wb : List Sheet) (c : String) : Bool :=
  catalogEligible c && (visibleSheets wb).any (fun s => s.cols.contains c)

/-- The dropdown choices for a catalog column: the sentinel followed by
the sorted accumulated values (line 189). -/
def filterOptions (wb : List Sheet) (c : String) : List String :=
  sentinel :: (catalogValues wb c).sort (· ≤ ·)

/-- A sheet that triggers the ValueError of line 103: neither line nor
point geometry columns. -/
def badFormat (s : Sheet) : Bool :=
  !(hasLineCols s.cols) && !(hasPointCols s.cols)

/-- Remove the underscore-named entries from a row. -/
def scrubRow (r : Row) : Row :=
  r.filter (fun p => !(strStartsWith p.1 "_"))

/-- Remove the underscore-named columns from a sheet. -/
def scrubSheet (s : Sheet) : Sheet :=
  ⟨s.name, s.cols.filter (fun c => !(strStartsWith c "_")), s.rows.map scrubRow⟩

/-- Modelled from the spec: the complement filter as the spec words it,
keeping exactly the rows whose value is not in the selected set minus
the sentinel.  Used only for comparison with the implemented filter. -/
def specComplementFilter (c : String) (values : List String) (rows : List Row) : List Row :=
  rows.filter (fun r => !(isinCell r c (values.erase sentinel)))

/-- Concrete line sheet with two rows. -/
def linesSheet : Sheet :=
  ⟨"Lines", ["lat1", "lon1", "lat2", "lon2"],
   [[("lat1", "1"), ("lon1", "2"), ("lat2", "3"), ("lon2", "4")],
    [("lat1", "5"), ("lon1", "6"), ("lat2", "7"), ("lon2", "8")]]⟩

/-- Concrete point sheet with two rows (the spec example workbook). -/
def pointSheet : Sheet :=
  ⟨"Cities", ["name", "lat", "lon"],
   [[("name", "Moscow"), ("lat", "55.75"), ("lon", "37.62")],
    [("name", "Kazan"), ("lat", "55.79"), ("lon", "49.12")]]⟩

/-- Concrete workbook whose single visible sheet has no geometry. -/
def badWorkbook : List Sheet :=
  [⟨"Bad", ["foo"], [[("foo", "1")]]⟩]

/-- Concrete sheet whose single row carries the sentinel string as a
data value. -/
def sentinelRowSheet : Sheet :=
  ⟨"S", ["k"], [[("k", "All, except")]]⟩

/-- Concrete workbook for catalog evaluation. -/
def cityWorkbook : List Sheet :=
  [⟨"S", ["city"], [[("city", "b")], [("city", "a")]]⟩]

/-- Concrete sheet with two filterable columns. -/
def abSheet : Sheet :=
  ⟨"S", ["a", "b"], [[("a", "1"), ("b", "2")], [("a", "1")], [("b", "2")]]⟩

/-- A selection touching columns a then b. -/
def selAB : List (String × List String) := [("a", ["1"]), ("b", ["2"])]

/-- The same selection, columns in the other order. -/
def selBA : List (String × List String) := [("b", ["2"]), ("a", ["1"])]

/-- Concrete hidden sheet. -/
def hiddenSheet : Sheet :=
  ⟨"_hidden", ["lat", "lon"], [[("lat", "0"), ("lon", "0")]]⟩

/-- Concrete workbook with an underscore column next to point geometry. -/
def underscoreWorkbook : List Sheet :=
  [⟨"Data", ["lat", "lon", "_note"],
    [[("lat", "1"), ("lon", "2"), ("_note", "x")]]⟩]

/-- Concrete sheet holding a row with a missing value in column k. -/
def nullRowSheet : Sheet :=
  ⟨"N", ["k"], [[("k", "x")], []]⟩

/-- The new-territory relation 71971 tagged with admin_level 3. -/
def newTerritoryLevel3 : Feature := ⟨"relation/71971", "3"⟩

/-- The new-territory relation 71973 tagged with admin_level 4. -/
def newTerritoryLevel4 : Feature := ⟨"relation/71973", "4"⟩

/-! ## Filter engine lemmas -/

theorem applyFilter_eq_filter (s : Sheet) (c : String) (vs : List String) (rows : List Row) :
    applyFilter s c vs rows = rows.filter (filterPred s c vs) := by
  unfold applyFilter filterPred
  by_cases h1 : c ∈ s.cols
  · by_cases h2 : vs = []
    · simp [h1, h2]
    · by_cases h3 : sentinel ∈ vs <;> simp [h1, h2, h3]
  · simp [h1]

theorem applyFilters_eq_filter (s : Sheet) (sel : List (String × List String)) :
    applyFilters s sel
      = s.rows.filter (fun r => sel.all (fun cv => filterPred s cv.1 cv.2 r)) := by
  have h : ∀ rows : List Row,
      sel.foldl (fun rows cv => applyFilter s cv.1 cv.2 rows) rows
        = rows.filter (fun r => sel.all (fun cv => filterPred s cv.1 cv.2 r)) := by
    induction sel with
    | nil => intro rows; simp
    | cons cv rest ih =>
      intro rows
      simp only [List.foldl_cons, List.all_cons]
      rw [applyFilter_eq_filter, ih (rows.filter (filterPred s cv.1 cv.2)), List.filter_filter]
      congr 1
      funext r
      exact Bool.and_comm _ _
  exact h s.rows

theorem all_perm {α : Type} (f : α → Bool) {l1 l2 : List α} (h : l1.Perm l2) :
    l1.all f = l2.all f := by
  rw [Bool.eq_iff_iff]
  simp only [List.all_eq_true]
  exact ⟨fun hh x hx => hh x (h.mem_iff.mpr hx), fun hh x hx => hh x (h.mem_iff.mp hx)⟩

theorem isinCell_eq_true_iff (r : Row) (c : String) (values : List String) :
    isinCell r c values = true ↔ ∃ v, cellVal r c = some v ∧ v ∈ values := by
  unfold isinCell
  cases h : cellVal r c <;> simp

theorem isinCell_eq_false_iff (r : Row) (c : String) (values : List String) :
    isinCell r c values = false ↔ ∀ v, cellVal r c = some v → v ∉ values := by
  rw [← Bool.not_eq_true, isinCell_eq_true_iff]
  push_neg
  rfl

/-- C5: the per-column filters of a selection combine as the logical
AND of independent row predicates, so applying them in any permutation
of the selection yields the same filtered row set. -/
theorem filter_application_commutes (s : Sheet) (sel1 sel2 : List (String × List String))
    (h : sel1.Perm sel2) :
    applyFilters s sel1
        = s.rows.filter (fun r => sel1.all (fun cv => filterPred s cv.1 cv.2 r)) ∧
    applyFilters s sel1 = applyFilters s sel2 := by
  refine ⟨applyFilters_eq_filter s sel1, ?_⟩
  rw [applyFilters_eq_filter, applyFilters_eq_filter]
  congr 1
  funext r
  exact all_perm _ h

/-- Witness for C5: the two orders of a concrete two-column selection
agree on a concrete sheet. -/
theorem filter_application_commutes_witness :
    applyFilters abSheet selAB = applyFilters abSheet selBA :=
  (filter_application_commutes abSheet selAB selBA (by decide)).2

/-- C4 counterexample: with the sentinel selected, the implementation
passes the full selected set to isin, so a row whose cell value is the
sentinel string itself is dropped, while the complement semantics of
the claim (selected set minus sentinel) keeps it. -/
theorem sentinel_complement_cex :
    applyFilter sentinelRowSheet "k" [sentinel] sentinelRowSheet.rows = [] ∧
    specComplementFilter "k" [sentinel] sentinelRowSheet.rows = sentinelRowSheet.rows ∧
    sentinelRowSheet.rows ≠ [] := by decide

/-- C4 (amended): an empty selection filters nothing; a selection
containing the sentinel keeps exactly the rows whose value is not in
the full selected set (sentinel included); a selection without the
sentinel keeps exactly the rows whose value is in the selected set. -/
theorem selection_semantics (s : Sheet) (c : String) (values : List String)
    (rows : List Row) (r : Row) (hc : s.cols.contains c = true) :
    applyFilter s c [] rows = rows ∧
    (values.contains sentinel = true →
      (r ∈ applyFilter s c values rows ↔
        r ∈ rows ∧ ∀ v, cellVal r c = some v → v ∉ values)) ∧
    (values ≠ [] → values.contains sentinel = false →
      (r ∈ applyFilter s c values rows ↔
        r ∈ rows ∧ ∃ v, cellVal r c = some v ∧ v ∈ values)) := by
  have hmem : c ∈ s.cols := List.elem_iff.mp hc
  refine ⟨by simp [applyFilter, hmem], ?_, ?_⟩
  · intro hs
    have hsmem : sentinel ∈ values := List.elem_iff.mp hs
    have hne : values ≠ [] := by
      intro hv
      rw [hv] at hsmem
      exact absurd hsmem (List.not_mem_nil sentinel)
    simp [applyFilter, hmem, hne, hsmem, List.mem_filter,
      Bool.not_eq_true', isinCell_eq_false_iff, List.isEmpty_iff]
  · intro hne hs
    have hsmem : sentinel ∉ values := by
      intro hv
      have h1 : values.contains sentinel = true := List.elem_iff.mpr hv
      rw [h1] at hs
      exact Bool.false_ne_true hs.symm
    simp [applyFilter, hmem, hne, hsmem, List.mem_filter,
      isinCell_eq_true_iff, List.isEmpty_iff]

/-- Witness for C4 at a concrete sheet and column. -/
theorem selection_semantics_witness :
    applyFilter abSheet "a" [] abSheet.rows = abSheet.rows :=
  (selection_semantics abSheet "a" ["1"] abSheet.rows [] (by decide)).1

/-- C10: a row with a missing value in the filtered column is always
kept by the complement filter and always dropped by the membership
filter, since a missing value never matches any selected value. -/
theorem null_value_filtering (s : Sheet) (c : String) (values : List String)
    (rows : List Row) (r : Row)
    (hc : s.cols.contains c = true) (hnull : cellVal r c = none) (hne : values ≠ []) :
    (values.contains sentinel = true → (r ∈ applyFilter s c values rows ↔ r ∈ rows)) ∧
    (values.contains sentinel = false → r ∉ applyFilter s c values rows) := by
  have hmem : c ∈ s.cols := List.elem_iff.mp hc
  have hisin : isinCell r c values = false := by
    unfold isinCell
    rw [hnull]
  constructor
  · intro hs
    have hsmem : sentinel ∈ values := List.elem_iff.mp hs
    simp [applyFilter, hmem, hne, hsmem, List.mem_filter, hisin, List.isEmpty_iff]
  · intro hs
    have hsmem : sentinel ∉ values := by
      intro hv
      have h1 : values.contains sentinel = true := List.elem_iff.mpr hv
      rw [h1] at hs
      exact Bool.false_ne_true hs.symm
    simp [applyFilter, hmem, hne, hsmem, List.mem_filter, hisin, List.isEmpty_iff]

/-- Witness for C10: the empty row of the concrete sheet is dropped by
a membership selection. -/
theorem null_value_filtering_witness :
    ([] : Row) ∉ applyFilter nullRowSheet "k" ["x"] nullRowSheet.rows :=
  (null_value_filtering nullRowSheet "k" ["x"] nullRowSheet.rows []
    (by decide) (by decide) (by decide)).2 (by decide)

/-! ## Classification and build lemmas -/

theorem processSheet_error_of_bad (sel : List (String × List String)) (s : Sheet)
    (h : badFormat s = true) :
    processSheet sel s = .error (errMsg s.name) := by
  have h1 : hasLineCols s.cols = false := by
    revert h
    unfold badFormat
    cases hasLineCols s.cols <;> simp
  have h2 : hasPointCols s.cols = false := by
    revert h
    unfold badFormat
    cases hasPointCols s.cols <;> simp
  unfold processSheet classifySheet
  rw [h1, h2]
  rfl

theorem processSheet_ok_of_good (sel : List (String × List String)) (s : Sheet)
    (h : badFormat s = false) :
    ∃ ls, processSheet sel s = .ok ls := by
  by_cases h1 : hasLineCols s.cols = true
  · have hcl : processSheet sel s = .ok ((applyFilters s sel).map (fun r =>
        Layer.line ⟨s.name, cellVal r "lon1", cellVal r "lon2",
          cellVal r "lat1", cellVal r "lat2",
          rowGet s.cols r "line_width" "2", rowGet s.cols r "line_color" "blue",
          dfGet s.cols (applyFilters s sel) "name" "Unnamed"⟩)) := by
      unfold processSheet classifySheet
      rw [h1]
      rfl
    exact ⟨_, hcl⟩
  · have h1f : hasLineCols s.cols = false := by
      revert h1
      cases hasLineCols s.cols <;> simp
    have h2 : hasPointCols s.cols = true := by
      revert h
      unfold badFormat
      rw [h1f]
      cases hasPointCols s.cols <;> simp
    have hcl : processSheet sel s = .ok [Layer.point ⟨s.name,
        (applyFilters s sel).map (fun r => cellVal r "lon"),
        (applyFilters s sel).map (fun r => cellVal r "lat"),
        dfGet s.cols (applyFilters s sel) "marker_size" "10",
        dfGet s.cols (applyFilters s sel) "marker_color" "red",
        dfGet s.cols (applyFilters s sel) "marker_symbol" "circle",
        dfGet s.cols (applyFilters s sel) "marker_opacity" "1",
        dfGet s.cols (applyFilters s sel) "name" "Unnamed"⟩] := by
      unfold processSheet classifySheet
      rw [h1f, h2]
      rfl
    exact ⟨_, hcl⟩

/-- C9: when some visible sheet has neither geometry column set, the
whole build yields an error carrying the name of a failing visible
sheet, and no layer list is produced at all. -/
theorem build_aborts_on_bad_sheet (wb : List Sheet) (sel : List (String × List String))
    (h : ∃ s, s ∈ visibleSheets wb ∧ badFormat s = true) :
    ∃ nm, createMapLayers wb sel = .error (errMsg nm) ∧
      ∃ s, s ∈ visibleSheets wb ∧ s.name = nm ∧ badFormat s = true := by
  induction wb with
  | nil =>
    obtain ⟨s, hs, _⟩ := h
    simp [visibleSheets] at hs
  | cons s rest ih =>
    by_cases hh : strStartsWith s.name "_" = true
    · have hv : visibleSheets (s :: rest) = visibleSheets rest := by
        simp [visibleSheets, List.filter_cons, hh]
      rw [hv] at h
      obtain ⟨nm, hnm, hex⟩ := ih h
      refine ⟨nm, ?_, ?_⟩
      · simpa [createMapLayers, hh] using hnm
      · rw [hv]
        exact hex
    · have hhf : strStartsWith s.name "_" = false := by
        revert hh
        cases strStartsWith s.name "_" <;> simp
      have hv : visibleSheets (s :: rest) = s :: visibleSheets rest := by
        simp [visibleSheets, List.filter_cons, hhf]
      by_cases hb : badFormat s = true
      · refine ⟨s.name, ?_, s, ?_, rfl, hb⟩
        · simp [createMapLayers, hhf, processSheet_error_of_bad sel s hb]
        · rw [hv]
          exact List.mem_cons_self s _
      · have hbf : badFormat s = false := by
          revert hb
          cases badFormat s <;> simp
        have hrest : ∃ t, t ∈ visibleSheets rest ∧ badFormat t = true := by
          obtain ⟨t, ht, hbt⟩ := h
          rw [hv] at ht
          rcases List.mem_cons.mp ht with h1 | h1
          · rw [h1] at hbt
            have h2 : (true : Bool) = false := hbt.symm.trans hbf
            exact absurd h2.symm Bool.false_ne_true
          · exact ⟨t, h1, hbt⟩
        obtain ⟨nm, hnm, t, htm, htn, htb⟩ := ih hrest
        obtain ⟨ls, hls⟩ := processSheet_ok_of_good sel s hbf
        refine ⟨nm, ?_, t, ?_, htn, htb⟩
        · simp [createMapLayers, hhf, hls, hnm]
        · rw [hv]
          exact List.mem_cons_of_mem s htm

/-- Witness for C9 at a one-sheet workbook without geometry columns. -/
theorem build_aborts_on_bad_sheet_witness :
    ∃ nm, createMapLayers badWorkbook [] = .error (errMsg nm) ∧
      ∃ s, s ∈ visibleSheets badWorkbook ∧ s.name = nm ∧ badFormat s = true :=
  build_aborts_on_bad_sheet badWorkbook []
    ⟨⟨"Bad", ["foo"], [[("foo", "1")]]⟩, by decide⟩

/-- C2 (code bug): at a workbook whose visible sheet fails
classification, the build raises before reaching the xls.close() call
of line 105, so the workbook handle is not released on that exit
path. -/
theorem close_skipped_on_error :
    createMapRun badWorkbook [] = (Except.error (errMsg "Bad"), false) := by
  rfl

/-- C7: a sheet with point but not line geometry columns yields exactly
one point layer whose coordinate series lengths equal the filtered row
count; a sheet with neither geometry column set yields the wrong-format
error carrying the sheet name. -/
theorem point_sheet_classification (s : Sheet) (sel : List (String × List String))
    (hnl : hasLineCols s.cols = false) :
    (hasPointCols s.cols = true →
      ∃ p : PointLayer, processSheet sel s = .ok [Layer.point p] ∧
        p.lats.length = (applyFilters s sel).length ∧
        p.lons.length = (applyFilters s sel).length) ∧
    (hasPointCols s.cols = false → processSheet sel s = .error (errMsg s.name)) := by
  constructor
  · intro hp
    refine ⟨⟨s.name,
      (applyFilters s sel).map (fun r => cellVal r "lon"),
      (applyFilters s sel).map (fun r => cellVal r "lat"),
      dfGet s.cols (applyFilters s sel) "marker_size" "10",
      dfGet s.cols (applyFilters s sel) "marker_color" "red",
      dfGet s.cols (applyFilters s sel) "marker_symbol" "circle",
      dfGet s.cols (applyFilters s sel) "marker_opacity" "1",
      dfGet s.cols (applyFilters s sel) "name" "Unnamed"⟩, ?_, ?_, ?_⟩
    · unfold processSheet classifySheet
      rw [hnl, hp]
      rfl
    · simp
    · simp
  · intro hp
    unfold processSheet classifySheet
    rw [hnl, hp]
    rfl

/-- Witness for C7 at the two-row concrete point sheet. -/
theorem point_sheet_classification_witness :
    ∃ p : PointLayer, processSheet [] pointSheet = .ok [Layer.point p] ∧
      p.lats.length = (applyFilters pointSheet []).length ∧
      p.lons.length = (applyFilters pointSheet []).length :=
  (point_sheet_classification pointSheet [] (by decide)).1 (by decide)

/-- C3 counterexample: the two-row line sheet yields two layers, not a
single layer. -/
theorem line_sheet_two_layers_cex :
    (processSheet [] linesSheet).toOption.map List.length = some 2 ∧
    (processSheet [] linesSheet).toOption.map List.length ≠ some 1 := by
  decide

/-- C3 (amended): a sheet with the four line columns yields one
single-segment line layer per filtered row, so the layer list has one
entry per row and every entry is a line layer. -/
theorem line_sheet_layer_per_row (s : Sheet) (sel : List (String × List String))
    (hl : hasLineCols s.cols = true) :
    ∃ ls, processSheet sel s = .ok ls ∧
      ls.length = (applyFilters s sel).length ∧
      ∀ l ∈ ls, ∃ ll : LineLayer, l = Layer.line ll := by
  have hcl : processSheet sel s = .ok ((applyFilters s sel).map (fun r =>
      Layer.line ⟨s.name, cellVal r "lon1", cellVal r "lon2",
        cellVal r "lat1", cellVal r "lat2",
        rowGet s.cols r "line_width" "2", rowGet s.cols r "line_color" "blue",
        dfGet s.cols (applyFilters s sel) "name" "Unnamed"⟩)) := by
    unfold processSheet classifySheet
    rw [hl]
    rfl
  refine ⟨_, hcl, by simp, ?_⟩
  intro l hml
  obtain ⟨r, _, hr⟩ := List.mem_map.mp hml
  exact ⟨_, hr.symm⟩

/-- Witness for C3 at the two-row concrete line sheet. -/
theorem line_sheet_layer_per_row_witness :
    ∃ ls, processSheet [] linesSheet = .ok ls ∧
      ls.length = (applyFilters linesSheet []).length ∧
      ∀ l ∈ ls, ∃ ll : LineLayer, l = Layer.line ll :=
  line_sheet_layer_per_row linesSheet [] (by decide)

/-! ## Boundary overlay lemmas -/

/-- C1 counterexample: the new-territory relation 71971 tagged with
admin_level 3 is classified as a federal district, not as a new
territory, and is excluded from an overlay requesting only the
new-territories category. -/
theorem new_territory_admin3_cex :
    featureType newTerritoryLevel3 = "Federal districts" ∧
    featureType newTerritoryLevel3 ≠ "Oblasts (new territories)" ∧
    selectOverlay [newTerritoryLevel3] ["Oblasts (new territories)"] = [] := by
  decide

/-- C1 (amended): a relation feature whose numeric id is in the
allow-list is categorised OblastNewTerritory whenever its admin_level
is not 3 (the admin_level-3 rule takes precedence over the allow-list),
and such a feature appears in the overlay result iff the
new-territories category is among the requested categories. -/
theorem new_territory_classification (f : Feature) (features : List Feature)
    (extra : List String)
    (hnode : strStartsWith f.id "node/" = false)
    (hid : (pythonInt (removePrefixStr f.id "relation/")).getD 0 ∈ newTerritoryIds)
    (hlvl : f.admin_level ≠ "3") :
    featureType f = "Oblasts (new territories)" ∧
    (f ∈ selectOverlay features extra ↔
      f ∈ features ∧ "Oblasts (new territories)" ∈ extra) := by
  have hbeq : (f.admin_level == "3") = false := by
    cases hb : f.admin_level == "3"
    · rfl
    · exact absurd (eq_of_beq hb) hlvl
  have hft : featureType f = "Oblasts (new territories)" := by
    have hcont : newTerritoryIds.contains
        ((pythonInt (removePrefixStr f.id "relation/")).getD 0) = true :=
      List.elem_iff.mpr hid
    unfold featureType
    rw [hbeq, hcont]
    rfl
  refine ⟨hft, ?_⟩
  unfold selectOverlay
  by_cases he : extra.isEmpty = true
  · have hextra : extra = [] := List.isEmpty_iff.mp he
    subst hextra
    simp
  · have hef : extra.isEmpty = false := by
      revert he
      cases extra.isEmpty <;> simp
    rw [hef]
    simp [List.mem_filter, hnode, hft]

/-- Witness for C1 at relation 71973 tagged with admin_level 4. -/
theorem new_territory_classification_witness :
    featureType newTerritoryLevel4 = "Oblasts (new territories)" ∧
    (newTerritoryLevel4 ∈
        selectOverlay [newTerritoryLevel4] ["Oblasts (new territories)"] ↔
      newTerritoryLevel4 ∈ [newTerritoryLevel4] ∧
        "Oblasts (new territories)" ∈ ["Oblasts (new territories)"]) :=
  new_territory_classification newTerritoryLevel4 [newTerritoryLevel4]
    ["Oblasts (new territories)"] (by decide) (by decide) (by decide)

/-! ## Filter catalog lemmas -/

theorem mem_catalog_foldl (c : String) (l : List Sheet) (acc : Finset String) (v : String) :
    v ∈ l.foldl (fun acc s =>
        if s.cols.contains c then acc ∪ sheetColValues s c else acc) acc ↔
      v ∈ acc ∨ ∃ s, s ∈ l ∧ s.cols.contains c = true ∧ v ∈ sheetColValues s c := by
  induction l generalizing acc with
  | nil => simp
  | cons s rest ih =>
    simp only [List.foldl_cons]
    rw [ih]
    by_cases hs : c ∈ s.cols <;>
      simp [hs, Finset.mem_union, List.mem_cons] <;> tauto

theorem catalogValues_perm {wb1 wb2 : List Sheet} (c : String) (h : wb1.Perm wb2) :
    catalogValues wb1 c = catalogValues wb2 c := by
  unfold catalogValues visibleSheets
  refine List.Perm.foldl_eq' (h.filter _) ?_ ∅
  intro x _ y _ z
  by_cases hx : c ∈ x.cols <;> by_cases hy : c ∈ y.cols <;>
    simp [hx, hy, Finset.union_comm, Finset.union_assoc, Finset.union_left_comm]

/-- C6: for a catalog column, the dropdown list starts with the
sentinel; its tail is sorted ascending, duplicate-free, and holds
exactly the non-null values observed for that column across all
visible sheets; and the options are invariant under permuting the
workbook's sheets. -/
theorem filter_catalog_shape (wb : List Sheet) (c : String) (h : inCatalog wb c = true) :
    (filterOptions wb c).head? = some sentinel ∧
    List.Sorted (fun a b : String => a ≤ b) ((filterOptions wb c).tail) ∧
    ((filterOptions wb c).tail).Nodup ∧
    (∀ v, v ∈ (filterOptions wb c).tail ↔
      ∃ s, s ∈ visibleSheets wb ∧ s.cols.contains c = true ∧
        ∃ r, r ∈ s.rows ∧ cellVal r c = some v) ∧
    (∀ wb2, wb.Perm wb2 → filterOptions wb c = filterOptions wb2 c) := by
  refine ⟨rfl, ?_, ?_, ?_, ?_⟩
  · exact Finset.sort_sorted _ _
  · exact Finset.sort_nodup _ _
  · intro v
    show v ∈ (catalogValues wb c).sort (· ≤ ·) ↔ _
    rw [Finset.mem_sort]
    unfold catalogValues
    rw [mem_catalog_foldl]
    simp [sheetColValues, List.mem_filterMap, List.mem_toFinset]
  · intro wb2 h2
    unfold filterOptions
    rw [catalogValues_perm c h2]

/-- Witness for C6 at the concrete one-sheet workbook. -/
theorem filter_catalog_shape_witness :
    (filterOptions cityWorkbook "city").head? = some sentinel :=
  (filter_catalog_shape cityWorkbook "city" (by decide)).1

/-! ## Underscore hiding lemmas -/

theorem scrubSheet_name (s : Sheet) : (scrubSheet s).name = s.name := rfl

theorem cellVal_scrubRow (r : Row) (c : String) (hc : strStartsWith c "_" = false) :
    cellVal (scrubRow r) c = cellVal r c := by
  induction r with
  | nil => rfl
  | cons p rest ih =>
    by_cases hq : (p.1 == c) = true
    · have hpc : p.1 = c := eq_of_beq hq
      have hp : strStartsWith p.1 "_" = false := by
        rw [hpc]
        exact hc
      simp [scrubRow, List.filter_cons, hp, cellVal, List.find?_cons, hq]
    · have hq2 : (p.1 == c) = false := by
        revert hq
        cases p.1 == c <;> simp
      by_cases hp : strStartsWith p.1 "_" = true
      · simpa [scrubRow, List.filter_cons, hp, cellVal, List.find?_cons, hq2] using ih
      · have hp2 : strStartsWith p.1 "_" = false := by
          revert hp
          cases strStartsWith p.1 "_" <;> simp
        simpa [scrubRow, List.filter_cons, hp2, cellVal, List.find?_cons, hq2] using ih

theorem contains_filter_nonhidden (l : List String) (c : String)
    (hc : strStartsWith c "_" = false) :
    (l.filter (fun x => !(strStartsWith x "_"))).contains c = l.contains c := by
  rw [Bool.eq_iff_iff]
  simp [List.mem_filter, hc]

theorem scrub_cols_contains (s : Sheet) (c : String) (hc : strStartsWith c "_" = false) :
    (scrubSheet s).cols.contains c = s.cols.contains c :=
  contains_filter_nonhidden s.cols c hc

theorem hasLineCols_scrub (s : Sheet) :
    hasLineCols (scrubSheet s).cols = hasLineCols s.cols := by
  unfold hasLineCols
  rw [scrub_cols_contains s "lat1" (by decide), scrub_cols_contains s "lon1" (by decide),
    scrub_cols_contains s "lat2" (by decide), scrub_cols_contains s "lon2" (by decide)]

theorem hasPointCols_scrub (s : Sheet) :
    hasPointCols (scrubSheet s).cols = hasPointCols s.cols := by
  unfold hasPointCols
  rw [scrub_cols_contains s "lat" (by decide), scrub_cols_contains s "lon" (by decide)]

theorem mapCellVal_scrub (rows : List Row) (c : String)
    (hc : strStartsWith c "_" = false) :
    (rows.map scrubRow).map (fun r => cellVal r c) = rows.map (fun r => cellVal r c) := by
  rw [List.map_map]
  exact List.map_congr_left (fun r _ => cellVal_scrubRow r c hc)

theorem rowGet_scrub (s : Sheet) (r : Row) (c d : String)
    (hc : strStartsWith c "_" = false) :
    rowGet (scrubSheet s).cols (scrubRow r) c d = rowGet s.cols r c d := by
  unfold rowGet
  rw [scrub_cols_contains s c hc, cellVal_scrubRow r c hc]

theorem dfGet_scrub (s : Sheet) (rows : List Row) (c d : String)
    (hc : strStartsWith c "_" = false) :
    dfGet (scrubSheet s).cols (rows.map scrubRow) c d = dfGet s.cols rows c d := by
  unfold dfGet
  rw [scrub_cols_contains s c hc, mapCellVal_scrub rows c hc]

theorem classifySheet_scrub (s : Sheet) (rows : List Row) :
    classifySheet (scrubSheet s) (rows.map scrubRow) = classifySheet s rows := by
  unfold classifySheet
  rw [hasLineCols_scrub, hasPointCols_scrub]
  by_cases h1 : hasLineCols s.cols = true
  · rw [h1]
    show Except.ok ((rows.map scrubRow).map (fun r =>
        Layer.line ⟨(scrubSheet s).name,
          cellVal r "lon1", cellVal r "lon2", cellVal r "lat1", cellVal r "lat2",
          rowGet (scrubSheet s).cols r "line_width" "2",
          rowGet (scrubSheet s).cols r "line_color" "blue",
          dfGet (scrubSheet s).cols (rows.map scrubRow) "name" "Unnamed"⟩))
      = Except.ok (rows.map (fun r =>
        Layer.line ⟨s.name,
          cellVal r "lon1", cellVal r "lon2", cellVal r "lat1", cellVal r "lat2",
          rowGet s.cols r "line_width" "2", rowGet s.cols r "line_color" "blue",
          dfGet s.cols rows "name" "Unnamed"⟩))
    refine congrArg Except.ok ?_
    rw [List.map_map]
    refine List.map_congr_left ?_
    intro r _
    show Layer.line ⟨(scrubSheet s).name,
        cellVal (scrubRow r) "lon1", cellVal (scrubRow r) "lon2",
        cellVal (scrubRow r) "lat1", cellVal (scrubRow r) "lat2",
        rowGet (scrubSheet s).cols (scrubRow r) "line_width" "2",
        rowGet (scrubSheet s).cols (scrubRow r) "line_color" "blue",
        dfGet (scrubSheet s).cols (rows.map scrubRow) "name" "Unnamed"⟩
      = Layer.line ⟨s.name,
        cellVal r "lon1", cellVal r "lon2", cellVal r "lat1", cellVal r "lat2",
        rowGet s.cols r "line_width" "2", rowGet s.cols r "line_color" "blue",
        dfGet s.cols rows "name" "Unnamed"⟩
    rw [scrubSheet_name,
      cellVal_scrubRow r "lon1" (by decide), cellVal_scrubRow r "lon2" (by decide),
      cellVal_scrubRow r "lat1" (by decide), cellVal_scrubRow r "lat2" (by decide),
      rowGet_scrub s r "line_width" "2" (by decide),
      rowGet_scrub s r "line_color" "blue" (by decide),
      dfGet_scrub s rows "name" "Unnamed" (by decide)]
  · have h1f : hasLineCols s.cols = false := by
      revert h1
      cases hasLineCols s.cols <;> simp
    rw [h1f]
    by_cases h2 : hasPointCols s.cols = true
    · rw [h2]
      show Except.ok [Layer.point ⟨(scrubSheet s).name,
          (rows.map scrubRow).map (fun r => cellVal r "lon"),
          (rows.map scrubRow).map (fun r => cellVal r "lat"),
          dfGet (scrubSheet s).cols (rows.map scrubRow) "marker_size" "10",
          dfGet (scrubSheet s).cols (rows.map scrubRow) "marker_color" "red",
          dfGet (scrubSheet s).cols (rows.map scrubRow) "marker_symbol" "circle",
          dfGet (scrubSheet s).cols (rows.map scrubRow) "marker_opacity" "1",
          dfGet (scrubSheet s).cols (rows.map scrubRow) "name" "Unnamed"⟩]
        = Except.ok [Layer.point ⟨s.name,
          rows.map (fun r => cellVal r "lon"), rows.map (fun r => cellVal r "lat"),
          dfGet s.cols rows "marker_size" "10", dfGet s.cols rows "marker_color" "red",
          dfGet s.cols rows "marker_symbol" "circle", dfGet s.cols rows "marker_opacity" "1",
          dfGet s.cols rows "name" "Unnamed"⟩]
      rw [scrubSheet_name,
        mapCellVal_scrub rows "lon" (by decide), mapCellVal_scrub rows "lat" (by decide),
        dfGet_scrub s rows "marker_size" "10" (by decide),
        dfGet_scrub s rows "marker_color" "red" (by decide),
        dfGet_scrub s rows "marker_symbol" "circle" (by decide),
        dfGet_scrub s rows "marker_opacity" "1" (by decide),
        dfGet_scrub s rows "name" "Unnamed" (by decide)]
    · have h2f : hasPointCols s.cols = false := by
        revert h2
        cases hasPointCols s.cols <;> simp
      rw [h2f]
      rfl

theorem isinCell_scrub (r : Row) (c : String) (vs : List String)
    (hc : strStartsWith c "_" = false) :
    isinCell (scrubRow r) c vs = isinCell r c vs := by
  unfold isinCell
  rw [cellVal_scrubRow r c hc]

theorem filterPred_scrub (s : Sheet) (c : String) (vs : List String) (r : Row)
    (hc : strStartsWith c "_" = false) :
    filterPred (scrubSheet s) c vs (scrubRow r) = filterPred s c vs r := by
  unfold filterPred
  rw [scrub_cols_contains s c hc, isinCell_scrub r c vs hc]

theorem applyFilter_scrub (s : Sheet) (c : String) (vs : List String) (rows : List Row)
    (hc : strStartsWith c "_" = false) :
    applyFilter (scrubSheet s) c vs (rows.map scrubRow)
      = (applyFilter s c vs rows).map scrubRow := by
  rw [applyFilter_eq_filter, applyFilter_eq_filter, List.filter_map]
  refine congrArg (List.map scrubRow) ?_
  refine List.filter_congr ?_
  intro r _
  exact filterPred_scrub s c vs r hc

theorem applyFilters_scrub (s : Sheet) (sel : List (String × List String))
    (hsel : ∀ cv ∈ sel, strStartsWith cv.1 "_" = false) :
    applyFilters (scrubSheet s) sel = (applyFilters s sel).map scrubRow := by
  have h : ∀ (sel2 : List (String × List String)),
      (∀ cv ∈ sel2, strStartsWith cv.1 "_" = false) →
      ∀ rows : List Row,
      sel2.foldl (fun rows cv => applyFilter (scrubSheet s) cv.1 cv.2 rows) (rows.map scrubRow)
        = (sel2.foldl (fun rows cv => applyFilter s cv.1 cv.2 rows) rows).map scrubRow := by
    intro sel2
    induction sel2 with
    | nil =>
      intro _ rows
      rfl
    | cons cv rest ih =>
      intro hs2 rows
      simp only [List.foldl_cons]
      rw [applyFilter_scrub s cv.1 cv.2 rows (hs2 cv (List.mem_cons_self cv rest))]
      exact ih (fun x hx => hs2 x (List.mem_cons_of_mem cv hx)) (applyFilter s cv.1 cv.2 rows)
  exact h sel hsel s.rows

theorem processSheet_scrub (sel : List (String × List String)) (s : Sheet)
    (hsel : ∀ cv ∈ sel, strStartsWith cv.1 "_" = false) :
    processSheet sel (scrubSheet s) = processSheet sel s := by
  unfold processSheet
  rw [applyFilters_scrub s sel hsel, classifySheet_scrub]

theorem createMapLayers_scrub (wb : List Sheet) (sel : List (String × List String))
    (hsel : ∀ cv ∈ sel, strStartsWith cv.1 "_" = false) :
    createMapLayers (wb.map scrubSheet) sel = createMapLayers wb sel := by
  induction wb with
  | nil => rfl
  | cons s rest ih =>
    show createMapLayers (scrubSheet s :: rest.map scrubSheet) sel = _
    by_cases hh : strStartsWith s.name "_" = true
    · simp [createMapLayers, scrubSheet_name, hh, ih]
    · have hhf : strStartsWith s.name "_" = false := by
        revert hh
        cases strStartsWith s.name "_" <;> simp
      simp [createMapLayers, scrubSheet_name, hhf, ih, processSheet_scrub sel s hsel]

/-- C8: a hidden sheet contributes nothing to the layer build or to
the catalog value sets; an underscore-named column is never a catalog
column; and removing every underscore-named column from every sheet
leaves the produced layers unchanged, for any selection over
non-underscore columns. -/
theorem underscore_hiding (wb : List Sheet) (sel : List (String × List String))
    (c : String) (s0 : Sheet)
    (hsel : ∀ cv ∈ sel, strStartsWith cv.1 "_" = false)
    (hc : strStartsWith c "_" = true)
    (h0 : strStartsWith s0.name "_" = true) :
    inCatalog wb c = false ∧
    createMapLayers (s0 :: wb) sel = createMapLayers wb sel ∧
    (∀ d, catalogValues (s0 :: wb) d = catalogValues wb d) ∧
    createMapLayers (wb.map scrubSheet) sel = createMapLayers wb sel := by
  refine ⟨?_, ?_, ?_, createMapLayers_scrub wb sel hsel⟩
  · unfold inCatalog catalogEligible
    rw [hc]
    simp
  · simp [createMapLayers, h0]
  · intro d
    simp [catalogValues, visibleSheets, List.filter_cons, h0]

/-- Witness for C8 at a concrete workbook, selection, underscore
column and hidden sheet. -/
theorem underscore_hiding_witness :
    inCatalog underscoreWorkbook "_note" = false :=
  (underscore_hiding underscoreWorkbook [("city", ["x"])] "_note" hiddenSheet
    (by decide) (by decide) (by decide)).1

end Mapvis
